import Mathlib

/-!
# trigex.moe: a verification development of `main.go`

The program is a small echo web server: `main` registers three page routes and a
static asset mount, `customErrorHandler` replaces the framework's error page for
404, and the three `serve*Page` handlers render constant data tables through the
`views` package.

The embedding is shallow.  Handlers are state-passing functions over a `Context`
that carries the wire state of one response (status line, body) together with a
trace of the calls the handler made on it.  Data tables are transcribed literally.
-/

namespace TrigexMoe

/-! ## Constants (`main.go`, lines 15-18) -/

def SiteName : String := "trigex.moe"

def Port : Nat := 8080

/-! ## `net/http` status codes used by the source -/

namespace http

def StatusOK : Int := 200
def StatusNotFound : Int := 404
def StatusInternalServerError : Int := 500
def MethodGet : String := "GET"

end http

/-! ## `time.Date` values

Every call in the source is `time.Date(y, time.M, d, 0, 0, 0, 0, time.UTC)`.  A
`Time` keeps the calendar fields of such a value; all arguments in the source are
in range, so Go's normalisation leaves them unchanged (see `musicData_dates_valid`).
-/

namespace time

inductive Location
  | UTC
  deriving DecidableEq, Repr

def UTC : Location := Location.UTC

def January : Nat := 1
def February : Nat := 2
def March : Nat := 3
def April : Nat := 4
def May : Nat := 5
def June : Nat := 6
def July : Nat := 7
def August : Nat := 8
def September : Nat := 9
def October : Nat := 10
def November : Nat := 11
def December : Nat := 12

structure Time where
  year : Nat
  month : Nat
  day : Nat
  hour : Nat
  min : Nat
  sec : Nat
  nsec : Nat
  loc : Location
  deriving DecidableEq, Repr

def Date (year month day hour min sec nsec : Nat) (loc : Location) : Time :=
  { year := year, month := month, day := day, hour := hour, min := min, sec := sec,
    nsec := nsec, loc := loc }

/-- Calendar fields from most to least significant. -/
def Time.fields (t : Time) : List Nat :=
  [t.year, t.month, t.day, t.hour, t.min, t.sec, t.nsec]

/-- Number of days of a month in a given year (Gregorian calendar). -/
def daysIn (year month : Nat) : Nat :=
  if month = 2 then
    (if year % 4 = 0 ∧ (year % 100 ≠ 0 ∨ year % 400 = 0) then 29 else 28)
  else if month = 4 ∨ month = 6 ∨ month = 9 ∨ month = 11 then 30
  else 31

/-- The fields denote a calendar instant as written, so `time.Date` does not
renormalise them. -/
def Time.normalised (t : Time) : Bool :=
  decide (1 ≤ t.month ∧ t.month ≤ 12 ∧ 1 ≤ t.day ∧ t.day ≤ daysIn t.year t.month ∧
    t.hour < 24 ∧ t.min < 60 ∧ t.sec < 60 ∧ t.nsec < 1000000000)

/-- `t.Before(u)`: the instant `t` is strictly earlier than `u`.  Both values are
in UTC, so instants compare as their calendar fields do, most significant first. -/
def Time.Before (t u : Time) : Bool :=
  decide (t.fields < u.fields)

end time

/-! ## Records of the `views` package, as the source constructs them -/

namespace views

structure Link where
  Name : String
  URL : String
  deriving DecidableEq, Repr

structure PageData where
  Title : String
  Name : String
  Bio : String
  Links : List Link
  deriving DecidableEq, Repr

/-- A field the source literal leaves out has Go's zero value, the empty string. -/
structure Track where
  Title : String := ""
  FlacURL : String := ""
  Mp3URL : String := ""
  YoutubeURL : String := ""
  SoundcloudURL : String := ""
  ReleaseDate : time.Time
  CoverImage : String := ""
  deriving DecidableEq, Repr

structure Project where
  Name : String
  Description : String
  RepoURL : String
  TechStack : String
  deriving DecidableEq, Repr

end views

/-! ## Data tables of the three page handlers -/

/-- The `data` literal of `serveHomePage` (lines 83-94). -/
def homeData : views.PageData :=
  { Title := SiteName,
    Name := SiteName,
    Bio := "Hi I'm Trigex! Welcome to my corner of the internet! I'm a software developer, music producer, DJ, and sysadmin. (BSDs preferred ;)). I unfortunately reside in California, but I hope that'll change one day. Always looking for work!",
    Links := [
      { Name := "GitHub", URL := "https://github.com/Trigex" },
      { Name := "Soundcloud", URL := "https://soundcloud.com/trigex" },
      { Name := "Instagram", URL := "https://www.instagram.com/seth.stokley/" },
      { Name := "Youtube", URL := "https://www.youtube.com/Trigex" },
      { Name := "Email", URL := "mailto:trigex@trigex.moe" } ] }

/-- The `data` literal of `serveMusicPage` (lines 102-117). -/
def musicData : List views.Track := [
  { Title := "Misantrophic Drunken Terror",
    FlacURL := "https://static.termer.net/download/9nr7rzpvyg/Misantrophic%20Drunken%20Terror.flac",
    Mp3URL := "https://static.termer.net/download/qym8owcsce/Misantrophic%20Drunken%20Terror.mp3",
    YoutubeURL := "https://www.youtube.com/watch?v=KZY7tkzlsys",
    SoundcloudURL := "https://soundcloud.com/trigex/trigex-misantrophic-drunken",
    ReleaseDate := time.Date 2025 time.April 18 0 0 0 0 time.UTC,
    CoverImage := "misanthropic.png" },
  { Title := "Alice in Psytrance Land",
    FlacURL := "https://static.termer.net/download/l7d9qfnker/Alice%20in%20Psytrance%20Land.flac",
    Mp3URL := "https://static.termer.net/download/utp0nbm3sr/Alice%20in%20Psytrance%20Land.mp3",
    YoutubeURL := "https://www.youtube.com/watch?v=8oRJMt3x6iw",
    SoundcloudURL := "https://soundcloud.com/trigex/alice-in-psytrance-land",
    ReleaseDate := time.Date 2025 time.April 8 0 0 0 0 time.UTC,
    CoverImage := "alice.png" },
  { Title := "Guru Guru",
    FlacURL := "https://static.termer.net/download/of1cgo07e6/Trigex%20-%20Guru%20Guru.flac",
    Mp3URL := "https://static.termer.net/download/gnacpph7b1/Trigex%20-%20Guru%20Guru.mp3",
    YoutubeURL := "https://www.youtube.com/watch?v=YRtf9nKzbEw",
    SoundcloudURL := "https://soundcloud.com/trigex/guru-guru",
    ReleaseDate := time.Date 2025 time.February 22 0 0 0 0 time.UTC,
    CoverImage := "guru.png" },
  { Title := "I Can Say Whatever I Want",
    Mp3URL := "https://static.termer.net/download/ql1swhlino/whatever.mp3",
    YoutubeURL := "https://www.youtube.com/watch?v=TLtzR51fdpk",
    SoundcloudURL := "https://soundcloud.com/trigex/i-can-say-whatever-i-want",
    ReleaseDate := time.Date 2025 time.January 21 0 0 0 0 time.UTC,
    CoverImage := "whatever.png" },
  { Title := "S3RL - Fan Service (Trigex Kick Edit)",
    Mp3URL := "https://static.termer.net/download/m1mfeg7q5e/S3RL%20-%20Fan%20Service%20(Trigex%20Kick%20Edit).mp3",
    FlacURL := "https://static.termer.net/download/6qlpxygqjs/S3RL%20-%20Fan%20Service%20(Trigex%20Kick%20Edit).flac",
    YoutubeURL := "https://youtu.be/g2J7a9OynnA",
    SoundcloudURL := "https://soundcloud.com/trigex/s3rl-fan-service-trigex-kick-edit",
    ReleaseDate := time.Date 2024 time.June 9 0 0 0 0 time.UTC,
    CoverImage := "fan.png" },
  { Title := "World's Smallest Violin (Trigex Happy Hardcore Bootleg)",
    FlacURL := "https://drive.google.com/file/d/1VH0CVeGEhf23RIW5qBRarELAjG7plH74/view?usp=sharing",
    Mp3URL := "https://static.termer.net/download/s6br7edtwi/AJR%20-%20World's%20Smallest%20Violin%20(Final%20Probably).mp3",
    YoutubeURL := "https://www.youtube.com/watch?v=5NXa6Egecug",
    SoundcloudURL := "https://soundcloud.com/trigex/worlds-smallest-violin-trigex-happy-hardcore-bootleg",
    ReleaseDate := time.Date 2024 time.May 31 0 0 0 0 time.UTC,
    CoverImage := "violin.png" },
  { Title := "Aubz Sneeze",
    FlacURL := "https://static.termer.net/download/ktxke53zfx/Trigex%20-%20Aubz%20Sneeze.flac",
    Mp3URL := "https://static.termer.net/download/y0ka6o8ygh/Trigex%20-%20Aubz%20Sneeze.mp3",
    YoutubeURL := "https://www.youtube.com/watch?v=EOQjTTWu4qc",
    SoundcloudURL := "https://soundcloud.com/trigex/aubz-sneeze",
    ReleaseDate := time.Date 2024 time.May 23 0 0 0 0 time.UTC,
    CoverImage := "aubz.png" },
  { Title := "Pedro (Trigex Uptempo Remix)",
    FlacURL := "https://static.termer.net/download/eyt6p0ne7v/Raffaella%20Carra%CC%80%20-%20Pedro%20(Trigex%20Uptempo%20Remix).flac",
    Mp3URL := "https://static.termer.net/download/l04jk9fdll/Raffaella%20Carra%CC%80%20-%20Pedro%20(Trigex%20Uptempo%20Remix).mp3",
    YoutubeURL := "https://www.youtube.com/watch?v=ZeeZyzhe-Xk",
    ReleaseDate := time.Date 2024 time.May 23 0 0 0 0 time.UTC,
    CoverImage := "pedro.png" },
  { Title := "Smiling Friends (Makina Mix)",
    FlacURL := "https://static.termer.net/download/qmw1lqiz1o/Trigex%20-%20Smiling%20Friends%20(Makina%20Mix).flac",
    Mp3URL := "https://static.termer.net/download/z1expkcm8e/Trigex%20-%20Smiling%20Friends%20(Makina%20Mix).mp3",
    YoutubeURL := "https://www.youtube.com/watch?v=JyhCesdnIS0",
    SoundcloudURL := "https://soundcloud.com/trigex/smiling-friends-makina-mix",
    ReleaseDate := time.Date 2024 time.April 9 0 0 0 0 time.UTC,
    CoverImage := "smiling.png" },
  { Title := "Super Idol 的笑容 (Trigex Makinatempo Remix)",
    FlacURL := "https://static.termer.net/download/csn3vodpep/Super%20Idol%20(Trigex%20Makinatempo%20Remix).flac",
    Mp3URL := "https://static.termer.net/download/j7ycis9yd5/Super%20Idol%20(Trigex%20Makinatempo%20Remix).mp3",
    YoutubeURL := "https://www.youtube.com/watch?v=TSM6cz_yOpo",
    SoundcloudURL := "https://soundcloud.com/trigex/super-idol-trigex-makinatempo-remix",
    ReleaseDate := time.Date 2024 time.January 16 0 0 0 0 time.UTC,
    CoverImage := "idol.png" },
  { Title := "That's So Gay",
    FlacURL := "https://static.termer.net/download/iir6r19aop/thatssogay.flac",
    Mp3URL := "https://static.termer.net/download/ah1zohpxex/thatssogay.mp3",
    YoutubeURL := "https://www.youtube.com/watch?v=ibLjholRJgQ",
    SoundcloudURL := "https://soundcloud.com/trigex/thats-so-gay",
    ReleaseDate := time.Date 2023 time.September 26 0 0 0 0 time.UTC,
    CoverImage := "gay.png" },
  { Title := "Kill Me, Baby",
    FlacURL := "https://static.termer.net/download/or5unjghec/Trigex%20-%20Kill%20Me%20%20Baby.flac",
    Mp3URL := "https://static.termer.net/download/x77kg5ew64/Trigex%20-%20Kill%20Me%20%20Baby.mp3",
    YoutubeURL := "https://www.youtube.com/watch?v=mT2og6R1XtI",
    SoundcloudURL := "https://soundcloud.com/trigex/kill-me-baby",
    ReleaseDate := time.Date 2023 time.August 28 0 0 0 0 time.UTC,
    CoverImage := "baby.png" },
  { Title := "Creeds - Push Up (Trigex Uptempo Bootleg)",
    FlacURL := "https://static.termer.net/download/ednyc7j4pe/Creeds%20-%20Push%20Up%20(Trigex%20Uptempo%20Bootleg).flac",
    Mp3URL := "https://static.termer.net/download/u91dsw7hhm/Creeds%20-%20Push%20Up%20(Trigex%20Uptempo%20Bootleg).mp3",
    SoundcloudURL := "https://soundcloud.com/trigex/push-up-trigex-uptempo-bootleg",
    YoutubeURL := "https://www.youtube.com/watch?v=o5JnASJYGNI",
    ReleaseDate := time.Date 2023 time.April 6 0 0 0 0 time.UTC,
    CoverImage := "pushup.png" },
  { Title := "Pill Provider",
    FlacURL := "https://static.termer.net/download/i1n1g6fpug/Pill%20Provider.flac",
    Mp3URL := "https://static.termer.net/download/w9i6gtuu7y/Pill%20Provider.mp3",
    YoutubeURL := "https://www.youtube.com/watch?v=UjYQ-CN6SNU",
    SoundcloudURL := "https://soundcloud.com/trigex/pill-provider",
    ReleaseDate := time.Date 2023 time.January 4 0 0 0 0 time.UTC,
    CoverImage := "pill.png" } ]

/-- The `data` literal of `serveProjectsPage` (lines 123-127). -/
def projectsData : List views.Project := [
  { Name := "convert-muh-music",
    Description := "A bulk audio library transcoder with sane defaults",
    RepoURL := "https://github.com/Trigex/convert-muh-music",
    TechStack := "Go, Python (For the working script, the Go version is a wip)" },
  { Name := "AlphaNET",
    Description := "AlphaNET was going to be a hacking & cracking style MMO with a whole virtual operating system and scripting, but never ended up finished...",
    RepoURL := "https://github.com/Trigex/AlphaNET",
    TechStack := "C#, .NET Standard" },
  { Name := "TextchBlazor",
    Description := "TextchBlazor was a 2channel-style front-end for my friend's Textbin project, but neither are active anymore",
    RepoURL := "https://github.com/Trigex/TextchBlazor",
    TechStack := "C#, Blazor" } ]

/-! ## Errors and `errors.As`

A Go `error` reaching the handler is a chain: a value that is either an
`*echo.HTTPError` (possibly carrying an `Internal` error) or some other error,
possibly wrapping a further one through `Unwrap`. -/

namespace echo

structure HTTPError where
  Code : Int
  Message : String
  deriving DecidableEq, Repr

end echo

inductive GoError
  /-- An error with no `Unwrap`, such as one from `errors.New`. -/
  | plain (msg : String)
  /-- An `*echo.HTTPError` whose `Internal` field is nil. -/
  | http (he : echo.HTTPError)
  /-- An `*echo.HTTPError` with `Internal` set; its `Unwrap` returns `internal`. -/
  | httpInternal (he : echo.HTTPError) (internal : GoError)
  /-- A non-HTTP error wrapping another, as `fmt.Errorf` with the verb `%w` builds. -/
  | wrap (msg : String) (inner : GoError)
  deriving DecidableEq, Repr

namespace echo

/-- The framework's `ErrNotFound`, returned for an unmatched route or a missing asset. -/
def ErrNotFound : GoError := GoError.http { Code := http.StatusNotFound, Message := "Not Found" }

end echo

namespace errors

/-- `errors.As(err, &he)` for a target of type `*echo.HTTPError`: walks the chain
from the outside and stops at the first error of that type; `none` is Go's `false`. -/
def As : GoError → Option echo.HTTPError
  | GoError.plain _ => none
  | GoError.http he => some he
  | GoError.httpInternal he _ => some he
  | GoError.wrap _ inner => As inner

end errors

/-! ## Components of the `views` package

The source only calls the constructors below; a component is kept as the term the
source builds, and `Component.nodes` gives the document it renders to. -/

namespace views

inductive Component
  | HomePage (data : PageData)
  | MusicPage (data : List Track)
  | ProjectsPage (data : List Project)
  | NotFoundPage
  | Layout (title : String) (contents : Component)
  deriving DecidableEq, Repr

def HomePage := Component.HomePage
def MusicPage := Component.MusicPage
def ProjectsPage := Component.ProjectsPage
def NotFoundPage := Component.NotFoundPage
def Layout := Component.Layout

/-- The four optional URLs of a track, in the order of the data model. -/
inductive LinkKind
  | lossless
  | lossy
  | video
  | audioSocial
  deriving DecidableEq, Repr

/-- One element of a rendered document. -/
inductive Node
  | title (text : String)
  | navigation
  | footer
  | heading (text : String)
  | paragraph (text : String)
  | anchor (label : String) (url : String)
  | cover (file : String)
  | released (date : time.Time)
  | trackLink (kind : LinkKind) (url : String)
  | techStack (text : String)
  deriving DecidableEq, Repr

/-- Modelled from the spec: the templates of the `views` package are not among the
sources.  An optional URL of a track yields its link element only when present. -/
def optionalLink (kind : LinkKind) (url : String) : List Node :=
  if url = "" then [] else [Node.trackLink kind url]

/-- Modelled from the spec: the music template of the `views` package is not among
the sources.  A track shows its title, cover image and release date, followed by
one link element for each of its download and streaming URLs that is present. -/
def trackNodes (t : Track) : List Node :=
  [Node.heading t.Title, Node.cover t.CoverImage, Node.released t.ReleaseDate]
    ++ optionalLink LinkKind.lossless t.FlacURL
    ++ optionalLink LinkKind.lossy t.Mp3URL
    ++ optionalLink LinkKind.video t.YoutubeURL
    ++ optionalLink LinkKind.audioSocial t.SoundcloudURL

/-- Modelled from the spec: the projects template of the `views` package is not
among the sources.  A project shows its name, description, repository URL and
technology stack. -/
def projectNodes (p : Project) : List Node :=
  [Node.heading p.Name, Node.paragraph p.Description, Node.anchor p.Name p.RepoURL,
    Node.techStack p.TechStack]

/-- Modelled from the spec: the templates of the `views` package are not among the
sources.  A page is its page-specific markup; the layout puts the title and the
navigation before its contents and the footer after them. -/
def Component.nodes : Component → List Node
  | Component.HomePage data =>
      [Node.heading data.Name, Node.paragraph data.Bio]
        ++ data.Links.map (fun l => Node.anchor l.Name l.URL)
  | Component.MusicPage data => (data.map trackNodes).flatten
  | Component.ProjectsPage data => (data.map projectNodes).flatten
  | Component.NotFoundPage => [Node.heading "Page Not Found"]
  | Component.Layout title contents =>
      [Node.title title, Node.navigation] ++ contents.nodes ++ [Node.footer]

/-- The URLs of the lossless link elements of a document, in document order. -/
def losslessLinks (doc : List Node) : List String :=
  doc.filterMap (fun n =>
    match n with
    | Node.trackLink LinkKind.lossless url => some url
    | _ => none)

end views

/-! ## One request and its response -/

structure Request where
  Method : String
  Path : String
  RawQuery : String
  Header : List (String × String)
  deriving DecidableEq, Repr

/-- A call made on the context or its response, in the order the handler made it. -/
inductive Event
  /-- `c.Response().WriteHeader(code)` -/
  | writeHeader (code : Int)
  /-- `page.Render(c.Request().Context(), c.Response().Writer)` -/
  | render (page : views.Component)
  /-- `c.Logger().Error(err)` -/
  | logError (err : GoError)
  /-- `c.Echo().DefaultHTTPErrorHandler(err, c)` -/
  | defaultHandler (err : GoError)
  deriving DecidableEq, Repr

/-- The state of `echo.Context` for one request.

* `status`: the status line sent by the underlying `http.ResponseWriter`, `none`
  until a header is written;
* `body`: the document written so far, the bytes on the wire being its encoding;
* `committed`: the `Committed` flag of `echo.Response`;
* `writeFault`: the error every write on the connection fails with, if any;
* `trace`: the calls the code of `main.go` has made on the context so far; what the
  framework does inside a call is not traced. -/
structure Context where
  request : Request
  status : Option Int
  body : List views.Node
  committed : Bool
  writeFault : Option GoError
  trace : List Event
  deriving DecidableEq, Repr

namespace Context

/-- The context the framework hands to a handler for a new request. -/
def fresh (request : Request) (writeFault : Option GoError) : Context :=
  { request := request, status := none, body := [], committed := false,
    writeFault := writeFault, trace := [] }

def record (c : Context) (ev : Event) : Context :=
  { c with trace := c.trace ++ [ev] }

/-- `c.Response().WriteHeader(code)`: `echo.Response` ignores the call once it is
committed; otherwise it forwards the code to the underlying writer, which keeps
the first status it was given, and marks the response committed. -/
def WriteHeader (c : Context) (code : Int) : Context :=
  let c := c.record (Event.writeHeader code)
  if c.committed then c
  else { c with status := some (c.status.getD code), committed := true }

/-- `c.Logger().Error(err)` -/
def LoggerError (c : Context) (err : GoError) : Context :=
  c.record (Event.logError err)

end Context

/-- `page.Render(ctx, c.Response().Writer)`: writes the document of `page` to the
underlying writer and returns the write error, nil (`none`) on success.  The first
write on a writer without a status line sends `200 OK`.  The writer is the raw
`http.ResponseWriter`, so the `Committed` flag of `echo.Response` is not touched. -/
def views.Component.Render (page : views.Component) (c : Context) : Context × Option GoError :=
  let c := c.record (Event.render page)
  match c.writeFault with
  | some e => (c, some e)
  | none =>
      ({ c with status := some (c.status.getD http.StatusOK), body := c.body ++ page.nodes },
        none)

/-- `c.Echo().DefaultHTTPErrorHandler(err, c)`: the framework's own responder lies
outside the program.  Only the call is kept, with the error it was given; the
response the framework then sends (the status of the error and a generic body) is
not part of the model, so `status` and `body` say nothing once a call is recorded. -/
def echo.DefaultHTTPErrorHandler (err : GoError) (c : Context) : Context :=
  c.record (Event.defaultHandler err)

/-! ## The handlers of `main.go` -/

/-- `customErrorHandler` (lines 57-80). -/
def customErrorHandler (err : GoError) (c : Context) : Context :=
  let code :=
    match errors.As err with
    | some he => he.Code
    | none => http.StatusInternalServerError
  if code = http.StatusNotFound then
    let c := c.WriteHeader code
    let page := views.Layout "trigex.moe | Page Not Found" views.NotFoundPage
    match page.Render c with
    | (c, some err) => c.LoggerError err
    | (c, none) => c
  else
    echo.DefaultHTTPErrorHandler err c

/-- `serveHomePage` (lines 82-99). -/
def serveHomePage (c : Context) : Context × Option GoError :=
  let data := homeData
  (views.Layout "trigex.moe | Home" (views.HomePage data)).Render c

/-- `serveMusicPage` (lines 101-120). -/
def serveMusicPage (c : Context) : Context × Option GoError :=
  let data := musicData
  (views.Layout "trigex.moe | Music" (views.MusicPage data)).Render c

/-- `serveProjectsPage` (lines 122-129). -/
def serveProjectsPage (c : Context) : Context × Option GoError :=
  let data := projectsData
  (views.Layout "trigex.moe | Projects" (views.ProjectsPage data)).Render c

/-- The status code `customErrorHandler` resolves for an error (its lines 59-63):
the code of the outermost `*echo.HTTPError` of the chain, 500 when there is none. -/
def resolvedCode (err : GoError) : Int :=
  match errors.As err with
  | some he => he.Code
  | none => http.StatusInternalServerError

/-! ## The server built by `main` -/

/-- A file system value as the source builds it. -/
inductive FS
  /-- The `embed.FS` filled by the directive `//go:embed` followed by `dir`. -/
  | embedded (dir : String)
  /-- `fs.Sub(fsys, dir)`: the subtree of `fsys` rooted at `dir`. -/
  | sub (fsys : FS) (dir : String)
  deriving DecidableEq, Repr

/-- `embeddedAssets` (lines 20-21). -/
def embeddedAssets : FS := FS.embedded "assets"

/-- `fs.Sub`; it fails only for an invalid directory name, which "assets" is not. -/
def fs.Sub (fsys : FS) (dir : String) : FS := FS.sub fsys dir

/-- What a route is registered with. -/
inductive HandlerFunc
  | serveHomePage
  | serveMusicPage
  | serveProjectsPage
  /-- The framework's file server over `fsys`, which `StaticFS` installs. -/
  | staticDirectory (fsys : FS)
  deriving DecidableEq, Repr

/-- The page handler a registration stands for; the file server is the framework's. -/
def HandlerFunc.page : HandlerFunc → Option (Context → Context × Option GoError)
  | HandlerFunc.serveHomePage => some TrigexMoe.serveHomePage
  | HandlerFunc.serveMusicPage => some TrigexMoe.serveMusicPage
  | HandlerFunc.serveProjectsPage => some TrigexMoe.serveProjectsPage
  | HandlerFunc.staticDirectory _ => none

def HandlerFunc.isPage (h : HandlerFunc) : Bool :=
  h.page.isSome

inductive Middleware
  | Logger
  | Recover
  deriving DecidableEq, Repr

inductive ErrorHandler
  | DefaultHTTPErrorHandler
  | customErrorHandler
  deriving DecidableEq, Repr

structure Route where
  Method : String
  Path : String
  Handler : HandlerFunc
  deriving DecidableEq, Repr

/-- The parts of `*echo.Echo` the source sets up.  `info` holds the messages given
to `e.Logger.Info`, `listening` the address given to `e.Start`. -/
structure Echo where
  middleware : List Middleware
  HTTPErrorHandler : ErrorHandler
  routes : List Route
  info : List String
  listening : Option String
  deriving DecidableEq, Repr

namespace Echo

/-- `echo.New()` -/
def New : Echo :=
  { middleware := [], HTTPErrorHandler := ErrorHandler.DefaultHTTPErrorHandler, routes := [],
    info := [], listening := none }

def Use (e : Echo) (m : Middleware) : Echo :=
  { e with middleware := e.middleware ++ [m] }

def Add (e : Echo) (method path : String) (h : HandlerFunc) : Echo :=
  { e with routes := e.routes ++ [{ Method := method, Path := path, Handler := h }] }

def GET (e : Echo) (path : String) (h : HandlerFunc) : Echo :=
  e.Add http.MethodGet path h

/-- `e.StaticFS(pathPrefix, fsys)` adds one GET route, for `pathPrefix` followed by
the wildcard `*`, served by the framework's file server over `fsys`. -/
def StaticFS (e : Echo) (pathPrefix : String) (fsys : FS) : Echo :=
  e.Add http.MethodGet (pathPrefix ++ "*") (HandlerFunc.staticDirectory fsys)

def LoggerInfo (e : Echo) (msg : String) : Echo :=
  { e with info := e.info ++ [msg] }

def Start (e : Echo) (address : String) : Echo :=
  { e with listening := some address }

end Echo

/-- A route path ending in `*` matches every request path that starts with what
precedes the `*`; any other route path matches itself only. -/
def Route.wildcard (r : Route) : Bool :=
  r.Path.toList.getLast? == some '*'

def Route.accepts (r : Route) (method path : String) : Bool :=
  r.Method == method &&
    (if r.wildcard then r.Path.toList.dropLast.isPrefixOf path.toList else r.Path == path)

/-- The router's choice for a request: a route whose path is the request path takes
precedence over a wildcard route. -/
def Echo.find (e : Echo) (method path : String) : Option HandlerFunc :=
  match e.routes.find? (fun r => !r.wildcard && r.accepts method path) with
  | some r => some r.Handler
  | none =>
      match e.routes.find? (fun r => r.wildcard && r.accepts method path) with
      | some r => some r.Handler
      | none => none

/-- `fmt.Sprintf(":%d", n)` -/
def sprintfPort (n : Nat) : String :=
  ":" ++ toString n

/-- `main` (lines 23-55), up to the call of `e.Start`.  The line printed to standard
output before the server is built is left out. -/
def main : Echo :=
  let e := Echo.New
  let e := e.Use Middleware.Logger
  let e := e.Use Middleware.Recover
  let staticFS := fs.Sub embeddedAssets "assets"
  let e := { e with HTTPErrorHandler := ErrorHandler.customErrorHandler }
  let e := e.StaticFS "/static" staticFS
  let e := e.GET "/" HandlerFunc.serveHomePage
  let e := e.GET "/music" HandlerFunc.serveMusicPage
  let e := e.GET "/projects" HandlerFunc.serveProjectsPage
  let portString := sprintfPort Port
  let e := e.LoggerInfo ("Started server on http://localhost:" ++ portString)
  let e := e.LoggerInfo ("Access static assets at http://localhost:" ++ portString ++ "/static/")
  e.Start (sprintfPort Port)

/-! ## Observations on a context, used to state the properties -/

/-- The errors handed to the framework's default error handler so far. -/
def Context.delegations (c : Context) : List GoError :=
  c.trace.filterMap (fun ev =>
    match ev with
    | Event.defaultHandler err => some err
    | _ => none)

/-- The pages rendered to the response writer so far. -/
def Context.rendered (c : Context) : List views.Component :=
  c.trace.filterMap (fun ev =>
    match ev with
    | Event.render page => some page
    | _ => none)

/-- The status codes given to `WriteHeader` so far. -/
def Context.headerCalls (c : Context) : List Int :=
  c.trace.filterMap (fun ev =>
    match ev with
    | Event.writeHeader code => some code
    | _ => none)

/-- The not-found page inside the shared layout, as `customErrorHandler` builds it. -/
def notFoundDocument : views.Component :=
  views.Layout "trigex.moe | Page Not Found" views.NotFoundPage

/-- The route `StaticFS` registers in `main`. -/
def staticRoute : Route :=
  { Method := "GET", Path := "/static*",
    Handler := HandlerFunc.staticDirectory (FS.sub (FS.embedded "assets") "assets") }

/-! ## Lemmas about the model -/

theorem main_routes_eq :
    main.routes =
      [ staticRoute,
        { Method := "GET", Path := "/", Handler := HandlerFunc.serveHomePage },
        { Method := "GET", Path := "/music", Handler := HandlerFunc.serveMusicPage },
        { Method := "GET", Path := "/projects", Handler := HandlerFunc.serveProjectsPage } ] := by
  decide

/-- Closed form of the router's choice over the routes of `main`. -/
theorem main_find_eq (method path : String) :
    main.find method path =
      if method = "GET" then
        if path = "/" then some HandlerFunc.serveHomePage
        else if path = "/music" then some HandlerFunc.serveMusicPage
        else if path = "/projects" then some HandlerFunc.serveProjectsPage
        else if "/static".toList.isPrefixOf path.toList then some staticRoute.Handler
        else none
      else none := by
  unfold Echo.find
  rw [main_routes_eq]
  have w1 : staticRoute.wildcard = true := by decide
  have w2 : Route.wildcard
      { Method := "GET", Path := "/", Handler := HandlerFunc.serveHomePage } = false := by
    decide
  have w3 : Route.wildcard
      { Method := "GET", Path := "/music", Handler := HandlerFunc.serveMusicPage } = false := by
    decide
  have w4 : Route.wildcard
      { Method := "GET", Path := "/projects", Handler := HandlerFunc.serveProjectsPage }
        = false := by
    decide
  have d : staticRoute.Path.toList.dropLast = "/static".toList := by decide
  have m : staticRoute.Method = "GET" := rfl
  simp only [List.find?, w1, w2, w3, w4, Route.accepts, d, m]
  by_cases hm : method = "GET"
  · subst hm
    by_cases h1 : path = "/"
    · subst h1; decide
    · by_cases h2 : path = "/music"
      · subst h2; decide
      · by_cases h3 : path = "/projects"
        · subst h3; decide
        · have e0 : ("GET" == "GET") = true := by decide
          have e1 : ("/" == path) = false := beq_false_of_ne (Ne.symm h1)
          have e2 : ("/music" == path) = false := beq_false_of_ne (Ne.symm h2)
          have e3 : ("/projects" == path) = false := beq_false_of_ne (Ne.symm h3)
          simp only [e0, e1, e2, e3, h1, h2, h3, Bool.true_and, Bool.and_false, Bool.and_true,
            Bool.not_true, Bool.not_false, Bool.false_and, if_true, if_false,
            Bool.false_eq_true]
          cases hp : "/static".toList.isPrefixOf path.toList <;> simp
  · have e : ("GET" == method) = false := beq_false_of_ne (Ne.symm hm)
    simp only [e, hm, Bool.false_and, Bool.and_false, if_false]

theorem resolvedCode_eq (err : GoError) :
    resolvedCode err =
      (match errors.As err with
       | some he => he.Code
       | none => http.StatusInternalServerError) := rfl

theorem customErrorHandler_of_not_found (err : GoError) (c : Context)
    (h : resolvedCode err = http.StatusNotFound) :
    customErrorHandler err c =
      (match notFoundDocument.Render (c.WriteHeader http.StatusNotFound) with
       | (c, some e) => c.LoggerError e
       | (c, none) => c) := by
  unfold customErrorHandler
  rw [resolvedCode_eq] at h
  simp only [h, if_true]
  rfl

theorem customErrorHandler_of_other (err : GoError) (c : Context)
    (h : resolvedCode err ≠ http.StatusNotFound) :
    customErrorHandler err c = echo.DefaultHTTPErrorHandler err c := by
  unfold customErrorHandler
  rw [resolvedCode_eq] at h
  simp only [h, if_false]

theorem losslessLinks_append (a b : List views.Node) :
    views.losslessLinks (a ++ b) = views.losslessLinks a ++ views.losslessLinks b := by
  simp [views.losslessLinks, List.filterMap_append]

theorem losslessLinks_optionalLink (kind : views.LinkKind) (url : String) :
    views.losslessLinks (views.optionalLink kind url) =
      if kind = views.LinkKind.lossless ∧ url ≠ "" then [url] else [] := by
  unfold views.optionalLink
  by_cases hu : url = ""
  · simp [hu, views.losslessLinks]
  · cases kind <;> simp [hu, views.losslessLinks]

theorem losslessLinks_trackNodes (t : views.Track) :
    views.losslessLinks (views.trackNodes t) = if t.FlacURL = "" then [] else [t.FlacURL] := by
  unfold views.trackNodes
  simp only [losslessLinks_append, losslessLinks_optionalLink]
  by_cases hu : t.FlacURL = "" <;> simp [hu, views.losslessLinks]

theorem losslessLinks_musicPage (data : List views.Track) :
    views.losslessLinks (views.MusicPage data).nodes =
      (data.filter (fun t => t.FlacURL != "")).map (fun t => t.FlacURL) := by
  show views.losslessLinks (data.map views.trackNodes).flatten = _
  induction data with
  | nil => rfl
  | cons t rest ih =>
      simp only [List.map_cons, List.flatten_cons, losslessLinks_append, ih,
        losslessLinks_trackNodes, List.filter_cons]
      by_cases hu : t.FlacURL = "" <;> simp [hu]


/-- C1: for an error whose resolved status code is 404, `customErrorHandler` calls
`WriteHeader(404)`, then renders the not-found page inside the shared layout with
title "trigex.moe | Page Not Found" to the response writer (logging the write
error if there is one), and never calls the framework's default error handler; on
a new response the status sent is 404 and, when the write succeeds, the body is
the document of that page. -/
theorem customErrorHandler_not_found (err : GoError) (c : Context)
    (h : resolvedCode err = 404) :
    (customErrorHandler err c).trace =
        c.trace ++ [Event.writeHeader 404,
            Event.render (views.Layout "trigex.moe | Page Not Found" views.NotFoundPage)]
          ++ (match c.writeFault with
              | some e => [Event.logError e]
              | none => [])
      ∧ (customErrorHandler err c).delegations = c.delegations
      ∧ (∀ (req : Request) (fault : Option GoError),
          (customErrorHandler err (Context.fresh req fault)).status = some 404)
      ∧ (∀ req : Request,
          (customErrorHandler err (Context.fresh req none)).body =
            (views.Layout "trigex.moe | Page Not Found" views.NotFoundPage).nodes) := by
  have key : ∀ c : Context, customErrorHandler err c = _ :=
    fun c => customErrorHandler_of_not_found err c h
  refine ⟨?_, ?_, ?_, ?_⟩
  · rw [key]
    obtain ⟨req, st, body, com, wf, tr⟩ := c
    cases com <;> cases wf <;> simp [views.Component.Render, Context.WriteHeader, Context.record, Context.LoggerError, notFoundDocument, views.Layout, views.NotFoundPage, http.StatusNotFound]
  · rw [key]
    obtain ⟨req, st, body, com, wf, tr⟩ := c
    cases com <;> cases wf <;> simp [views.Component.Render, Context.WriteHeader, Context.record, Context.LoggerError, notFoundDocument, views.Layout, views.NotFoundPage, http.StatusNotFound, Context.delegations, List.filterMap_append]
  · intro req fault
    rw [key]
    cases fault <;> rfl
  · intro req
    rw [key]
    rfl


/-- Witness for C1: a wrapped `ErrNotFound` resolves to 404 and yields status 404
with the not-found document as body. -/
theorem customErrorHandler_not_found_witness :
    resolvedCode (GoError.wrap "lookup" echo.ErrNotFound) = 404
      ∧ (customErrorHandler (GoError.wrap "lookup" echo.ErrNotFound)
            (Context.fresh { Method := "GET", Path := "/nowhere", RawQuery := "", Header := [] }
              none)).status = some 404 :=
  ⟨by decide,
    (customErrorHandler_not_found (GoError.wrap "lookup" echo.ErrNotFound)
      (Context.fresh { Method := "GET", Path := "/nowhere", RawQuery := "", Header := [] } none)
      (by decide)).2.2.1 _ _⟩

/-- C2: for an error whose resolved status code is not 404, `customErrorHandler`
is exactly one call of the framework's default error handler with the same error
on the unchanged context, and the handler itself makes no `WriteHeader` call and
renders nothing.  An error with no `*echo.HTTPError` in its chain resolves to 500.
The not-found page is rendered if and only if the resolved code is 404. -/
theorem customErrorHandler_delegates (err : GoError) (c : Context) :
    (resolvedCode err ≠ 404 →
        customErrorHandler err c = echo.DefaultHTTPErrorHandler err c
          ∧ (customErrorHandler err c).delegations = c.delegations ++ [err]
          ∧ (customErrorHandler err c).headerCalls = c.headerCalls
          ∧ (customErrorHandler err c).rendered = c.rendered)
      ∧ (errors.As err = none → resolvedCode err = 500)
      ∧ ((customErrorHandler err c).rendered =
            c.rendered ++ [views.Layout "trigex.moe | Page Not Found" views.NotFoundPage]
          ↔ resolvedCode err = 404) := by
  have other : resolvedCode err ≠ 404 →
      customErrorHandler err c = echo.DefaultHTTPErrorHandler err c :=
    fun h => customErrorHandler_of_other err c h
  have unchanged : (echo.DefaultHTTPErrorHandler err c).rendered = c.rendered := by
    simp [echo.DefaultHTTPErrorHandler, Context.record, Context.rendered,
      List.filterMap_append]
  refine ⟨fun h => ?_, fun h => ?_, ?_, ?_⟩
  · rw [other h]
    refine ⟨rfl, ?_, ?_, unchanged⟩
    · simp [echo.DefaultHTTPErrorHandler, Context.record, Context.delegations,
        List.filterMap_append]
    · simp [echo.DefaultHTTPErrorHandler, Context.record, Context.headerCalls,
        List.filterMap_append]
  · rw [resolvedCode_eq, h]
    rfl
  · intro hr
    by_contra hne
    rw [other hne, unchanged] at hr
    simp at hr
  · intro h
    rw [customErrorHandler_of_not_found err c h]
    obtain ⟨req, st, body, com, wf, tr⟩ := c
    cases com <;> cases wf <;>
      simp [views.Component.Render, Context.WriteHeader, Context.record, Context.LoggerError,
        notFoundDocument, views.Layout, views.NotFoundPage, http.StatusNotFound,
        Context.rendered, List.filterMap_append]

/-- Witness for C2: a plain error resolves to 500 and is handed to the default
handler. -/
theorem customErrorHandler_delegates_witness :
    resolvedCode (GoError.plain "write failed") ≠ 404
      ∧ customErrorHandler (GoError.plain "write failed")
          (Context.fresh { Method := "GET", Path := "/", RawQuery := "", Header := [] } none)
        = echo.DefaultHTTPErrorHandler (GoError.plain "write failed")
          (Context.fresh { Method := "GET", Path := "/", RawQuery := "", Header := [] } none)
      ∧ resolvedCode (GoError.plain "write failed") = 500 :=
  ⟨by decide,
    ((customErrorHandler_delegates (GoError.plain "write failed")
      (Context.fresh { Method := "GET", Path := "/", RawQuery := "", Header := [] } none)).1
      (by decide)).1,
    (customErrorHandler_delegates (GoError.plain "write failed")
      (Context.fresh { Method := "GET", Path := "/", RawQuery := "", Header := [] } none)).2.1
      rfl⟩

/-- C3: `main` registers exactly four routes, all for GET: the static asset mount
for the paths under "/static", and "/", "/music", "/projects" with `serveHomePage`,
`serveMusicPage`, `serveProjectsPage`.  For every method and path the router
selects a page handler if and only if the method is GET and the path is one of
those three, and then it is the handler registered for that path. -/
theorem main_route_table :
    main.routes =
        [ { Method := "GET", Path := "/static*",
            Handler := HandlerFunc.staticDirectory (fs.Sub embeddedAssets "assets") },
          { Method := "GET", Path := "/", Handler := HandlerFunc.serveHomePage },
          { Method := "GET", Path := "/music", Handler := HandlerFunc.serveMusicPage },
          { Method := "GET", Path := "/projects", Handler := HandlerFunc.serveProjectsPage } ]
      ∧ (main.routes.filter (fun r => r.Handler.isPage)).map (fun r => (r.Method, r.Path))
          = [("GET", "/"), ("GET", "/music"), ("GET", "/projects")]
      ∧ main.routes.filter (fun r => !r.Handler.isPage) = [staticRoute]
      ∧ main.find "GET" "/" = some HandlerFunc.serveHomePage
      ∧ main.find "GET" "/music" = some HandlerFunc.serveMusicPage
      ∧ main.find "GET" "/projects" = some HandlerFunc.serveProjectsPage
      ∧ (∀ method path : String,
          (∃ h, main.find method path = some h ∧ h.isPage = true)
            ↔ method = "GET" ∧ (path = "/" ∨ path = "/music" ∨ path = "/projects")) := by
  refine ⟨by decide, by decide, by decide, by decide, by decide, by decide, ?_⟩
  intro method path
  rw [main_find_eq]
  constructor
  · rintro ⟨h, hf, hp⟩
    by_cases hm : method = "GET"
    · refine ⟨hm, ?_⟩
      by_cases h1 : path = "/"
      · exact Or.inl h1
      · by_cases h2 : path = "/music"
        · exact Or.inr (Or.inl h2)
        · by_cases h3 : path = "/projects"
          · exact Or.inr (Or.inr h3)
          · exfalso
            simp only [hm, h1, h2, h3, if_true, if_false] at hf
            split at hf
            · cases hf
              revert hp
              decide
            · cases hf
    · simp only [hm, if_false] at hf
      cases hf
  · rintro ⟨hm, h1 | h2 | h3⟩
    · subst hm; subst h1
      exact ⟨HandlerFunc.serveHomePage, by decide, by decide⟩
    · subst hm; subst h2
      exact ⟨HandlerFunc.serveMusicPage, by decide, by decide⟩
    · subst hm; subst h3
      exact ⟨HandlerFunc.serveProjectsPage, by decide, by decide⟩


theorem render_trace (page : views.Component) (c : Context) :
    (page.Render c).1.trace = c.trace ++ [Event.render page] := by
  unfold views.Component.Render
  cases hf : c.writeFault <;> simp [Context.record, hf]

theorem render_rendered (page : views.Component) (c : Context) :
    (page.Render c).1.rendered = c.rendered ++ [page] := by
  simp [Context.rendered, render_trace, List.filterMap_append]

theorem render_headerCalls (page : views.Component) (c : Context) :
    (page.Render c).1.headerCalls = c.headerCalls := by
  simp [Context.headerCalls, render_trace, List.filterMap_append]

theorem render_result (page : views.Component) (c : Context) :
    (page.Render c).2 = c.writeFault := by
  unfold views.Component.Render
  cases hf : c.writeFault <;> simp [Context.record, hf]

theorem layout_title_mem (title : String) (contents : views.Component) :
    views.Node.title title ∈ (views.Layout title contents).nodes := by
  simp [views.Layout, views.Component.nodes]

/-- C4: each page handler is one render of the shared layout, with the title of
its page, around the page built from its data table: it returns exactly what the
render returns (the write error, nil on success) and makes no `WriteHeader` call.
On a new response whose writes succeed the result is nil, the status sent is 200
and the body is the document of that layout, which contains the page title. -/
theorem page_handlers_render_layout :
    (∀ c : Context,
        serveHomePage c = (views.Layout "trigex.moe | Home" (views.HomePage homeData)).Render c
          ∧ (serveHomePage c).1.trace
              = c.trace ++ [Event.render (views.Layout "trigex.moe | Home" (views.HomePage homeData))]
          ∧ (serveHomePage c).1.headerCalls = c.headerCalls
          ∧ (serveHomePage c).2 = c.writeFault)
      ∧ (∀ req : Request,
          (serveHomePage (Context.fresh req none)).2 = none
            ∧ (serveHomePage (Context.fresh req none)).1.status = some 200
            ∧ (serveHomePage (Context.fresh req none)).1.body
                = (views.Layout "trigex.moe | Home" (views.HomePage homeData)).nodes
            ∧ views.Node.title "trigex.moe | Home" ∈ (serveHomePage (Context.fresh req none)).1.body)
      ∧ (∀ c : Context,
        serveMusicPage c = (views.Layout "trigex.moe | Music" (views.MusicPage musicData)).Render c
          ∧ (serveMusicPage c).1.trace
              = c.trace ++ [Event.render (views.Layout "trigex.moe | Music" (views.MusicPage musicData))]
          ∧ (serveMusicPage c).1.headerCalls = c.headerCalls
          ∧ (serveMusicPage c).2 = c.writeFault)
      ∧ (∀ req : Request,
          (serveMusicPage (Context.fresh req none)).2 = none
            ∧ (serveMusicPage (Context.fresh req none)).1.status = some 200
            ∧ (serveMusicPage (Context.fresh req none)).1.body
                = (views.Layout "trigex.moe | Music" (views.MusicPage musicData)).nodes
            ∧ views.Node.title "trigex.moe | Music" ∈ (serveMusicPage (Context.fresh req none)).1.body)
      ∧ (∀ c : Context,
        serveProjectsPage c = (views.Layout "trigex.moe | Projects" (views.ProjectsPage projectsData)).Render c
          ∧ (serveProjectsPage c).1.trace
              = c.trace ++ [Event.render (views.Layout "trigex.moe | Projects" (views.ProjectsPage projectsData))]
          ∧ (serveProjectsPage c).1.headerCalls = c.headerCalls
          ∧ (serveProjectsPage c).2 = c.writeFault)
      ∧ (∀ req : Request,
          (serveProjectsPage (Context.fresh req none)).2 = none
            ∧ (serveProjectsPage (Context.fresh req none)).1.status = some 200
            ∧ (serveProjectsPage (Context.fresh req none)).1.body
                = (views.Layout "trigex.moe | Projects" (views.ProjectsPage projectsData)).nodes
            ∧ views.Node.title "trigex.moe | Projects" ∈ (serveProjectsPage (Context.fresh req none)).1.body) := by
  refine ⟨fun c => ⟨rfl, render_trace _ c, render_headerCalls _ c, render_result _ c⟩,
    fun req => ⟨rfl, rfl, rfl, layout_title_mem _ _⟩,
    fun c => ⟨rfl, render_trace _ c, render_headerCalls _ c, render_result _ c⟩,
    fun req => ⟨rfl, rfl, rfl, layout_title_mem _ _⟩,
    fun c => ⟨rfl, render_trace _ c, render_headerCalls _ c, render_result _ c⟩,
    fun req => ⟨rfl, rfl, rfl, layout_title_mem _ _⟩⟩

theorem drop_append_self {α : Type} (a b : List α) : (a ++ b).drop a.length = b := by
  simp

/-- C5: what a page handler renders does not depend on the context it runs in:
for any two contexts (any request headers, query string, and any calls made
earlier on them) the handler makes the same calls with the same page, and on new
responses whose writes succeed the bodies and statuses are identical. -/
theorem page_rendering_idempotent :
    (∀ c₁ c₂ : Context,
        (serveHomePage c₁).1.trace.drop c₁.trace.length = (serveHomePage c₂).1.trace.drop c₂.trace.length
          ∧ (serveHomePage c₁).1.rendered.drop c₁.rendered.length
              = (serveHomePage c₂).1.rendered.drop c₂.rendered.length)
      ∧ (∀ r₁ r₂ : Request,
          (serveHomePage (Context.fresh r₁ none)).1.body = (serveHomePage (Context.fresh r₂ none)).1.body
            ∧ (serveHomePage (Context.fresh r₁ none)).1.status
                = (serveHomePage (Context.fresh r₂ none)).1.status)
      ∧ (∀ c₁ c₂ : Context,
        (serveMusicPage c₁).1.trace.drop c₁.trace.length = (serveMusicPage c₂).1.trace.drop c₂.trace.length
          ∧ (serveMusicPage c₁).1.rendered.drop c₁.rendered.length
              = (serveMusicPage c₂).1.rendered.drop c₂.rendered.length)
      ∧ (∀ r₁ r₂ : Request,
          (serveMusicPage (Context.fresh r₁ none)).1.body = (serveMusicPage (Context.fresh r₂ none)).1.body
            ∧ (serveMusicPage (Context.fresh r₁ none)).1.status
                = (serveMusicPage (Context.fresh r₂ none)).1.status)
      ∧ (∀ c₁ c₂ : Context,
        (serveProjectsPage c₁).1.trace.drop c₁.trace.length = (serveProjectsPage c₂).1.trace.drop c₂.trace.length
          ∧ (serveProjectsPage c₁).1.rendered.drop c₁.rendered.length
              = (serveProjectsPage c₂).1.rendered.drop c₂.rendered.length)
      ∧ (∀ r₁ r₂ : Request,
          (serveProjectsPage (Context.fresh r₁ none)).1.body = (serveProjectsPage (Context.fresh r₂ none)).1.body
            ∧ (serveProjectsPage (Context.fresh r₁ none)).1.status
                = (serveProjectsPage (Context.fresh r₂ none)).1.status) := by
  have tr : ∀ (page : views.Component) (c₁ c₂ : Context),
      (page.Render c₁).1.trace.drop c₁.trace.length
          = (page.Render c₂).1.trace.drop c₂.trace.length
        ∧ (page.Render c₁).1.rendered.drop c₁.rendered.length
          = (page.Render c₂).1.rendered.drop c₂.rendered.length := by
    intro page c₁ c₂
    simp only [render_trace, render_rendered, drop_append_self, and_self]
  exact ⟨fun c₁ c₂ => tr _ c₁ c₂, fun _ _ => ⟨rfl, rfl⟩,
    fun c₁ c₂ => tr _ c₁ c₂, fun _ _ => ⟨rfl, rfl⟩,
    fun c₁ c₂ => tr _ c₁ c₂, fun _ _ => ⟨rfl, rfl⟩⟩


/-- C6: in the rendered music page a track without a lossless URL (empty
`FlacURL`) has no lossless link element and every other track has exactly one, to
its `FlacURL`; so the lossless links of the page are the non-empty `FlacURL`s of
the table, in order.  In the table of `serveMusicPage` the only track without one
is "I Can Say Whatever I Want", and the page served has 13 lossless links. -/
theorem music_page_lossless_links :
    (∀ t : views.Track,
        views.losslessLinks (views.trackNodes t) = if t.FlacURL = "" then [] else [t.FlacURL])
      ∧ (∀ (title : String) (data : List views.Track),
          views.losslessLinks (views.Layout title (views.MusicPage data)).nodes
            = (data.filter (fun t => t.FlacURL != "")).map (fun t => t.FlacURL))
      ∧ (musicData.filter (fun t => t.FlacURL == "")).map (fun t => t.Title)
          = ["I Can Say Whatever I Want"]
      ∧ (∀ req : Request,
          views.losslessLinks (serveMusicPage (Context.fresh req none)).1.body
              = (musicData.filter (fun t => t.FlacURL != "")).map (fun t => t.FlacURL)
            ∧ (views.losslessLinks (serveMusicPage (Context.fresh req none)).1.body).length
              = 13) := by
  have layout : ∀ (title : String) (data : List views.Track),
      views.losslessLinks (views.Layout title (views.MusicPage data)).nodes
        = (data.filter (fun t => t.FlacURL != "")).map (fun t => t.FlacURL) := by
    intro title data
    show views.losslessLinks
      ([views.Node.title title, views.Node.navigation] ++ (views.MusicPage data).nodes
        ++ [views.Node.footer]) = _
    rw [losslessLinks_append, losslessLinks_append, losslessLinks_musicPage]
    simp [views.losslessLinks]
  have body : ∀ req : Request,
      (serveMusicPage (Context.fresh req none)).1.body
        = (views.Layout "trigex.moe | Music" (views.MusicPage musicData)).nodes :=
    fun _ => rfl
  refine ⟨losslessLinks_trackNodes, layout, by decide, fun req => ?_⟩
  rw [body, layout]
  exact ⟨rfl, by decide⟩

/-- C8: `main` hands ":8080" to `e.Start`, but the two startup messages carry the
colon of the address a second time: they read
"Started server on http://localhost::8080" and
"Access static assets at http://localhost::8080/static/", not the URL
"http://localhost:8080". -/
theorem main_startup_messages :
    Port = 8080
      ∧ main.listening = some ":8080"
      ∧ main.info =
          [ "Started server on http://localhost::8080",
            "Access static assets at http://localhost::8080/static/" ]
      ∧ main.info.head? ≠ some "Started server on http://localhost:8080"
      ∧ main.info.getLast? ≠ some "Access static assets at http://localhost:8080/static/" := by
  refine ⟨rfl, by decide, by decide, by decide, by decide⟩

/-- C9: the table of `serveMusicPage` has 14 tracks and is ordered newest first:
of any two adjacent tracks the first is not released before the second. -/
theorem musicData_newest_first :
    musicData.length = 14
      ∧ List.Chain' (fun a b : views.Track => a.ReleaseDate.Before b.ReleaseDate = false)
          musicData
      ∧ (∀ t ∈ musicData, t.ReleaseDate.normalised = true)
      ∧ (∀ c : Context,
          (serveMusicPage c).1.rendered
            = c.rendered ++ [views.Layout "trigex.moe | Music" (views.MusicPage musicData)]) := by
  refine ⟨by decide, ?_, by decide, fun c => render_rendered _ c⟩
  unfold musicData
  repeat (first
    | exact List.chain'_singleton _
    | refine List.Chain'.cons (by decide) ?_)

/-- C10: every track of the table of `serveMusicPage` has a non-empty `Title`,
`Mp3URL`, `YoutubeURL` and `CoverImage`; titles are pairwise distinct and so are
cover images; `FlacURL` is empty for exactly one track and `SoundcloudURL` for
exactly one. -/
theorem musicData_fields :
    (∀ t ∈ musicData,
        t.Title ≠ "" ∧ t.Mp3URL ≠ "" ∧ t.YoutubeURL ≠ "" ∧ t.CoverImage ≠ "")
      ∧ (musicData.map (fun t => t.Title)).Nodup
      ∧ (musicData.map (fun t => t.CoverImage)).Nodup
      ∧ (musicData.filter (fun t => t.FlacURL == "")).length = 1
      ∧ (musicData.filter (fun t => t.SoundcloudURL == "")).length = 1 := by
  refine ⟨by decide, by decide, by decide, by decide, by decide⟩

end TrigexMoe
